import Mathlib

/-!
Verification of `plot_geometric_figures/main.py` against its specification.

The script is a thin CLI wrapper around matplotlib: it parses shape
parameters, builds one geometric patch (circle, rectangle or ellipse) and
emits it to a window, the terminal, or an image file.

Modelling conventions:
* Python floats carry no arithmetic here (parameters are only passed
  through), so coordinates and sizes are modelled as rationals `ℚ`.
* Filesystem paths are modelled as strings; `pathlib.Path.suffix` and
  `Path.absolute` are reimplemented below following POSIX `pathlib`
  semantics, because `check_args` depends on them.
* `SUPPORTED_FILE_TYPES` is queried from the matplotlib backend at startup
  and is not part of the source, so every definition is parameterised by a
  list `supported : List String`.
* Side effects (switching the backend driver, `plt.show`, `plt.savefig`)
  are recorded in an `OutputTrace` value; `parser.error` and the
  `assert` statement become `Except` errors.
-/

/-- The matplotlib patch built by a plotter: the arguments the script passes
to `Circle`, `Rectangle` and `Ellipse` respectively, in source order
(`xy`, then `radius` or `width`/`height`/`angle`). -/
inductive Patch where
  | circle (xy : ℚ × ℚ) (radius : ℚ)
  | rectangle (xy : ℚ × ℚ) (width height angle : ℚ)
  | ellipse (xy : ℚ × ℚ) (width height angle : ℚ)
deriving DecidableEq

/-- Python `str.split(sep)` for a one-character separator, on character
lists (e.g. splitting on every dot or every slash). -/
def splitOnChar (sep : Char) : List Char → List (List Char)
  | [] => [[]]
  | c :: rest =>
    let r := splitOnChar sep rest
    if c = sep then [] :: r
    else match r with
      | [] => [[c]]
      | g :: gs => (c :: g) :: gs

/-- Python `str.upper` on one ASCII character. -/
def charUpper (c : Char) : Char :=
  if 'a' ≤ c ∧ c ≤ 'z' then Char.ofNat (c.toNat - 32) else c

/-- Python `str.lower` on one ASCII character. -/
def charLower (c : Char) : Char :=
  if 'A' ≤ c ∧ c ≤ 'Z' then Char.ofNat (c.toNat + 32) else c

/-- Python `str.upper` (ASCII). -/
def strUpper (s : String) : String := String.mk (s.toList.map charUpper)

/-- Python `str.lower` (ASCII). -/
def strLower (s : String) : String := String.mk (s.toList.map charLower)

/-- `pathlib` name of the final path component: the last component of the
path once empty components and `.` components are dropped. -/
def pathName (p : String) : String :=
  String.mk (((splitOnChar '/' p.toList).filter
    (fun s => s != [] && s != ['.'])).getLastD [])

/-- Index of the last occurrence of a dot in a list of characters
(Python str.rfind), if any. -/
def lastDotIndex (cs : List Char) : Option Nat :=
  ((List.range cs.length).filter (fun i => cs.getD i ' ' == '.')).getLast?

/-- `pathlib.PurePath.suffix`: `name[i:]` where `i = name.rfind('.')`,
provided `0 < i < len(name) - 1`; otherwise the empty string. -/
def pathSuffix (p : String) : String :=
  let cs := (pathName p).toList
  match lastDotIndex cs with
  | none => ""
  | some i => if 0 < i ∧ i < cs.length - 1 then String.mk (cs.drop i) else ""

/-- The extension computed by `check_args`:
`outputfile.suffix.split('.')[-1]`. -/
def fileExtension (p : String) : String :=
  String.mk ((splitOnChar '.' (pathSuffix p).toList).getLastD [])

/-- `pathlib.Path.absolute()` on POSIX: the path itself when already
absolute, otherwise the current working directory joined with it. -/
def pathAbsolute (cwd : String) (p : String) : String :=
  if p.toList.headD ' ' = '/' then p else cwd ++ "/" ++ p

/-- State shared by all plotters, set up in `AbstractPlotter.__init__`. -/
structure AbstractPlotter where
  plotted_data : Option Patch
  coordinates : ℚ × ℚ
  output_type : String
  output_file_path : Option String
deriving DecidableEq

/-- `AbstractPlotter.__init__`: `plotted_data` starts as `None`, the anchor
coordinates are the pair `(x, y)`, and the output file path is made
absolute when present. -/
def AbstractPlotter.init (cwd : String) (x y : ℚ) (output_type : String)
    (output_file_path : Option String) : AbstractPlotter :=
  { plotted_data := none
    coordinates := (x, y)
    output_type := output_type
    output_file_path := output_file_path.map (pathAbsolute cwd) }

/-- The `assert self.plotted_data` failure in `do_output`. -/
inductive AssertionError where
  | plottedDataFalsy
deriving DecidableEq

/-- Observable effects of one `do_output` call. -/
structure OutputTrace where
  /-- `matplotlib.use('module://drawilleplot')` was called. -/
  driver_switched : Bool
  /-- the patch passed to `ax.add_patch`. -/
  drawn : Patch
  /-- `plt.show()` was called (blocking). -/
  shown : Bool
  /-- argument of `plt.savefig`, when it was called. -/
  saved_to : Option String
deriving DecidableEq

/-- `AbstractPlotter.do_output`: asserts a patch was plotted, switches the
backend driver for `console`, draws the patch, then shows the figure for
`show`/`console` or saves it for `file`. -/
def AbstractPlotter.do_output (p : AbstractPlotter) :
    Except AssertionError OutputTrace :=
  match p.plotted_data with
  | none => .error AssertionError.plottedDataFalsy
  | some patch =>
    if p.output_type = "show" ∨ p.output_type = "console" then
      .ok { driver_switched := p.output_type == "console"
            drawn := patch
            shown := true
            saved_to := none }
    else if p.output_type = "file" then
      .ok { driver_switched := p.output_type == "console"
            drawn := patch
            shown := false
            saved_to := p.output_file_path }
    else
      .ok { driver_switched := p.output_type == "console"
            drawn := patch
            shown := false
            saved_to := none }

/-- `CirclePlotter`: the shared state plus the circle radius. -/
structure CirclePlotter extends AbstractPlotter where
  radius : ℚ
deriving DecidableEq

/-- `CirclePlotter.__init__`. -/
def CirclePlotter.init (cwd : String) (x y : ℚ) (output_type : String)
    (output_file_path : Option String) (radius : ℚ) : CirclePlotter :=
  { toAbstractPlotter := AbstractPlotter.init cwd x y output_type output_file_path
    radius := radius }

/-- `CirclePlotter.plot`: stores `Circle(self.coordinates, self.radius)`. -/
def CirclePlotter.plot (p : CirclePlotter) : CirclePlotter :=
  { p with plotted_data := some (Patch.circle p.coordinates p.radius) }

/-- `CirclePlotter.run`: construct, plot, output. -/
def CirclePlotter.run (cwd : String) (x y : ℚ) (output_type : String)
    (output_file_path : Option String) (radius : ℚ) :
    Except AssertionError OutputTrace :=
  ((CirclePlotter.init cwd x y output_type output_file_path radius).plot).toAbstractPlotter.do_output

/-- `RectanglePlotter`: the shared state plus width, height and angle.
`EllipsePlotter` inherits this state unchanged (it only overrides
`plot`), so it reuses this structure. -/
structure RectanglePlotter extends AbstractPlotter where
  width : ℚ
  height : ℚ
  angle : ℚ
deriving DecidableEq

/-- `RectanglePlotter.__init__` (also `EllipsePlotter`'s, by inheritance). -/
def RectanglePlotter.init (cwd : String) (x y : ℚ) (output_type : String)
    (output_file_path : Option String) (width height angle : ℚ) :
    RectanglePlotter :=
  { toAbstractPlotter := AbstractPlotter.init cwd x y output_type output_file_path
    width := width
    height := height
    angle := angle }

/-- `RectanglePlotter.plot`: stores
`Rectangle(self.coordinates, self.width, self.height, angle=self.angle)`. -/
def RectanglePlotter.plot (p : RectanglePlotter) : RectanglePlotter :=
  { p with plotted_data := some (Patch.rectangle p.coordinates p.width p.height p.angle) }

/-- `RectanglePlotter.run`. -/
def RectanglePlotter.run (cwd : String) (x y : ℚ) (output_type : String)
    (output_file_path : Option String) (width height angle : ℚ) :
    Except AssertionError OutputTrace :=
  ((RectanglePlotter.init cwd x y output_type output_file_path width height angle).plot).toAbstractPlotter.do_output

/-- `EllipsePlotter.__init__` is inherited from `RectanglePlotter`. -/
def EllipsePlotter.init (cwd : String) (x y : ℚ) (output_type : String)
    (output_file_path : Option String) (width height angle : ℚ) :
    RectanglePlotter :=
  RectanglePlotter.init cwd x y output_type output_file_path width height angle

/-- `EllipsePlotter.plot`: stores
`Ellipse(self.coordinates, self.width, self.height, angle=self.angle)`. -/
def EllipsePlotter.plot (p : RectanglePlotter) : RectanglePlotter :=
  { p with plotted_data := some (Patch.ellipse p.coordinates p.width p.height p.angle) }

/-- `EllipsePlotter.run`. -/
def EllipsePlotter.run (cwd : String) (x y : ℚ) (output_type : String)
    (output_file_path : Option String) (width height angle : ℚ) :
    Except AssertionError OutputTrace :=
  (EllipsePlotter.plot (EllipsePlotter.init cwd x y output_type output_file_path width height angle)).toAbstractPlotter.do_output

/-- The figure subcommand together with its positional parameters, exactly
the three subparsers `circle`, `rectangle`, `ellipse`. -/
inductive Figure where
  | circle (radius : ℚ)
  | rectangle (width height angle : ℚ)
  | ellipse (width height angle : ℚ)
deriving DecidableEq

/-- The namespace produced by `parser.parse_args()`: `outputtype` is one of
the `choices` strings, `outputfile` is optional, `x`/`y` default to `0`,
and the required subcommand carries the figure parameters. -/
structure ScriptArgs where
  outputtype : String
  outputfile : Option String
  x : ℚ
  y : ℚ
  figure : Figure
deriving DecidableEq

/-- A `parser.error(...)` call in `check_args`, tagged with the message. -/
inductive UsageError where
  | missingOutputFile (msg : String)
  | missingExtension (msg : String)
  | unsupportedFormat (msg : String)
deriving DecidableEq

/-- Message of the `-o`-missing error. -/
def missingOutputFileMsg : String :=
  "-o must be specified if output type is file"

/-- Message of the empty-extension error. -/
def missingExtensionMsg (supported : List String) : String :=
  "Please specify file extension\n" ++
    "Supported extensions: " ++ String.intercalate ", " supported

/-- Message of the unsupported-extension error; note the extension is
rendered in upper case. -/
def unsupportedFormatMsg (extension : String) (supported : List String) :
    String :=
  strUpper extension ++
    (" file format is not supported by matplotlib\n" ++
      ("Supported extensions: " ++ String.intercalate ", " supported))

/-- `ArgsParser.check_args`, parameterised by the backend's supported file
types: when the output type is `file`, require `-o`, then require a
non-empty extension that belongs to the supported set. -/
def ArgsParser.check_args (supported : List String) (a : ScriptArgs) :
    Except UsageError Unit :=
  if a.outputtype = "file" then
    match a.outputfile with
    | none => .error (.missingOutputFile missingOutputFileMsg)
    | some p =>
      let extension := fileExtension p
      if extension = "" then
        .error (.missingExtension (missingExtensionMsg supported))
      else if extension ∉ supported then
        .error (.unsupportedFormat (unsupportedFormatMsg extension supported))
      else
        .ok ()
  else
    .ok ()

/-- The plotter state constructed and plotted by `main` for the given
arguments, projected to the shared fields. -/
def mainPlotterBase (cwd : String) (a : ScriptArgs) : AbstractPlotter :=
  match a.figure with
  | .circle r =>
      ((CirclePlotter.init cwd a.x a.y a.outputtype a.outputfile r).plot).toAbstractPlotter
  | .rectangle w h ang =>
      ((RectanglePlotter.init cwd a.x a.y a.outputtype a.outputfile w h ang).plot).toAbstractPlotter
  | .ellipse w h ang =>
      (EllipsePlotter.plot (EllipsePlotter.init cwd a.x a.y a.outputtype a.outputfile w h ang)).toAbstractPlotter

namespace PlotScript

/-- `main`: validate the arguments (any `parser.error` aborts before a
plotter exists), then dispatch on the figure type and run the matching
plotter. -/
def main (supported : List String) (cwd : String) (a : ScriptArgs) :
    Except UsageError (Except AssertionError OutputTrace) :=
  match ArgsParser.check_args supported a with
  | .error e => .error e
  | .ok _ =>
    .ok (match a.figure with
      | .circle r =>
          CirclePlotter.run cwd a.x a.y a.outputtype a.outputfile r
      | .rectangle w h ang =>
          RectanglePlotter.run cwd a.x a.y a.outputtype a.outputfile w h ang
      | .ellipse w h ang =>
          EllipsePlotter.run cwd a.x a.y a.outputtype a.outputfile w h ang)

end PlotScript

/-- Modelled from the spec: the process exit status. The source exits via
`argparse`'s standard error exit on a usage error ("process exits
non-zero", status 2), via an uncaught `AssertionError` (status 1)
otherwise on failure, and with 0 on success. -/
def mainExitCode (r : Except UsageError (Except AssertionError OutputTrace)) :
    Nat :=
  match r with
  | .error _ => 2
  | .ok (.error _) => 1
  | .ok (.ok _) => 0

/-- The files written by an invocation: the `savefig` target of the trace,
when the run reached `do_output` and took the `file` branch. -/
def filesWritten (r : Except UsageError (Except AssertionError OutputTrace)) :
    List String :=
  match r with
  | .ok (.ok t) => t.saved_to.toList
  | _ => []

/-! ### Helper lemmas -/

/-- Equation lemma: `do_output` on an unplotted plotter fails the
assertion. -/
theorem do_output_eq_of_none (p : AbstractPlotter)
    (hp : p.plotted_data = none) :
    p.do_output = Except.error AssertionError.plottedDataFalsy := by
  unfold AbstractPlotter.do_output
  rw [hp]

/-- Equation lemma: `do_output` on a plotted plotter is the three-way
dispatch on the output type. -/
theorem do_output_eq_of_some (p : AbstractPlotter) (patch : Patch)
    (hp : p.plotted_data = some patch) :
    p.do_output =
      (if p.output_type = "show" ∨ p.output_type = "console" then
        Except.ok ⟨p.output_type == "console", patch, true, none⟩
      else if p.output_type = "file" then
        Except.ok ⟨p.output_type == "console", patch, false, p.output_file_path⟩
      else
        Except.ok ⟨p.output_type == "console", patch, false, none⟩) := by
  unfold AbstractPlotter.do_output
  rw [hp]

/-- Once a patch has been plotted, `do_output` never hits the assertion. -/
theorem do_output_ok_of_plotted (p : AbstractPlotter) (patch : Patch)
    (hp : p.plotted_data = some patch) :
    ∃ t, p.do_output = Except.ok t := by
  rw [do_output_eq_of_some p patch hp]
  split_ifs <;> exact ⟨_, rfl⟩

/-- When `do_output` succeeds on a plotter whose output type is not
`file`, no `savefig` call is recorded. -/
theorem do_output_saved_to_of_not_file (p : AbstractPlotter)
    (hne : p.output_type ≠ "file") (t : OutputTrace)
    (h : p.do_output = Except.ok t) : t.saved_to = none := by
  cases hp : p.plotted_data with
  | none => rw [do_output_eq_of_none p hp] at h; simp at h
  | some patch =>
    rw [do_output_eq_of_some p patch hp] at h
    by_cases h1 : p.output_type = "show" ∨ p.output_type = "console"
    · rw [if_pos h1, Except.ok.injEq] at h
      rw [← h]
    · rw [if_neg h1, if_neg hne, Except.ok.injEq] at h
      rw [← h]

/-- A failed `check_args` makes `main` exit non-zero with no file written. -/
theorem main_usage_error (supported : List String) (cwd : String)
    (a : ScriptArgs) (h : ArgsParser.check_args supported a ≠ Except.ok ()) :
    mainExitCode (PlotScript.main supported cwd a) ≠ 0 ∧
    filesWritten (PlotScript.main supported cwd a) = [] := by
  unfold PlotScript.main
  cases hc : ArgsParser.check_args supported a with
  | error e =>
    refine ⟨?_, ?_⟩
    · show (2 : Nat) ≠ 0
      decide
    · rfl
  | ok u => cases u; exact absurd hc h

/-! ### Claim theorems -/

/-- Claim C1: constructing a `CirclePlotter` anchored at `(x, y)` with a
given radius and calling `plot` stores exactly one rendered shape in
`plotted_data`: a circle patch centered at `(x, y)` with that radius. -/
theorem circlePlotter_plot_builds_circle (cwd : String) (x y radius : ℚ)
    (output_type : String) (output_file_path : Option String) :
    ((CirclePlotter.init cwd x y output_type output_file_path radius).plot).plotted_data
      = some (Patch.circle (x, y) radius) := rfl

/-- Claim C2: `RectanglePlotter.plot` and `EllipsePlotter.plot` each store
a patch anchored at `(x, y)` with the given width, height and angle passed
through unchanged; the two results differ only in the patch constructor. -/
theorem rectangle_ellipse_plot_passthrough (cwd : String)
    (x y width height angle : ℚ) (output_type : String)
    (output_file_path : Option String) :
    ((RectanglePlotter.init cwd x y output_type output_file_path width height angle).plot).plotted_data
      = some (Patch.rectangle (x, y) width height angle) ∧
    (EllipsePlotter.plot (EllipsePlotter.init cwd x y output_type output_file_path width height angle)).plotted_data
      = some (Patch.ellipse (x, y) width height angle) := ⟨rfl, rfl⟩

/-- Claim C7: `do_output` dispatches on the output mode: `console` switches
the backend driver and performs the same blocking show call as `show`;
`show` shows without switching drivers; `file` saves the figure to the
configured output path and performs no blocking show call. -/
theorem do_output_dispatch (p : AbstractPlotter) (patch : Patch)
    (hp : p.plotted_data = some patch) :
    (p.output_type = "console" →
      p.do_output = Except.ok ⟨true, patch, true, none⟩) ∧
    (p.output_type = "show" →
      p.do_output = Except.ok ⟨false, patch, true, none⟩) ∧
    (p.output_type = "file" →
      p.do_output = Except.ok ⟨false, patch, false, p.output_file_path⟩) := by
  rw [do_output_eq_of_some p patch hp]
  refine ⟨fun h => ?_, fun h => ?_, fun h => ?_⟩ <;> simp [h]

/-- Claim C6: on every CLI-driven path the assertion in `do_output` cannot
fail: whenever `main` reaches a plotter run, the run's `plot` has stored a
patch, so the result is never the assertion error. -/
theorem run_assertion_unreachable (supported : List String) (cwd : String)
    (a : ScriptArgs) (r : Except AssertionError OutputTrace)
    (h : PlotScript.main supported cwd a = Except.ok r) :
    ∃ t, r = Except.ok t := by
  unfold PlotScript.main at h
  cases hc : ArgsParser.check_args supported a with
  | error e => rw [hc] at h; simp at h
  | ok u =>
    rw [hc] at h
    simp only [Except.ok.injEq] at h
    subst h
    cases hf : a.figure with
    | circle radius => exact do_output_ok_of_plotted _ _ rfl
    | rectangle width height angle => exact do_output_ok_of_plotted _ _ rfl
    | ellipse width height angle => exact do_output_ok_of_plotted _ _ rfl

/-- Claim C3: with `outputtype=file` and an output file present, checking
succeeds iff the part of the path's suffix after its last dot is non-empty
and supported; an empty extension raises the missing-extension usage
error, an unsupported one raises the unsupported-format usage error
listing the supported formats, and either error exits non-zero with no
file written and no rendering. -/
theorem check_args_file_extension_spec (supported : List String)
    (cwd : String) (a : ScriptArgs) (p : String)
    (ht : a.outputtype = "file") (ho : a.outputfile = some p) :
    (ArgsParser.check_args supported a = Except.ok () ↔
      (fileExtension p ≠ "" ∧ fileExtension p ∈ supported)) ∧
    (fileExtension p = "" →
      ArgsParser.check_args supported a
        = Except.error (.missingExtension (missingExtensionMsg supported))) ∧
    (fileExtension p ≠ "" → fileExtension p ∉ supported →
      ArgsParser.check_args supported a
        = Except.error (.unsupportedFormat (unsupportedFormatMsg (fileExtension p) supported))) ∧
    (ArgsParser.check_args supported a ≠ Except.ok () →
      mainExitCode (PlotScript.main supported cwd a) ≠ 0 ∧
      filesWritten (PlotScript.main supported cwd a) = []) := by
  refine ⟨?_, ?_, ?_, main_usage_error supported cwd a⟩ <;>
    unfold ArgsParser.check_args <;> rw [ht, ho] <;>
    by_cases h1 : fileExtension p = "" <;>
    by_cases h2 : fileExtension p ∈ supported <;>
    simp [h1, h2]

/-- Claim C4: with `outputtype=file` and no `-o` argument, checking raises
the missing-`-o` usage error, `main` terminates with it (non-zero exit),
and no plotter runs and no file is written. -/
theorem check_args_missing_outputfile (supported : List String)
    (cwd : String) (a : ScriptArgs) (ht : a.outputtype = "file")
    (ho : a.outputfile = none) :
    ArgsParser.check_args supported a
      = Except.error (.missingOutputFile missingOutputFileMsg) ∧
    PlotScript.main supported cwd a
      = Except.error (.missingOutputFile missingOutputFileMsg) ∧
    mainExitCode (PlotScript.main supported cwd a) ≠ 0 ∧
    filesWritten (PlotScript.main supported cwd a) = [] := by
  have hc : ArgsParser.check_args supported a
      = Except.error (.missingOutputFile missingOutputFileMsg) := by
    unfold ArgsParser.check_args
    rw [ht, ho]
    simp
  have hm : PlotScript.main supported cwd a
      = Except.error (.missingOutputFile missingOutputFileMsg) := by
    unfold PlotScript.main
    rw [hc]
  refine ⟨hc, hm, ?_, ?_⟩ <;> rw [hm]
  · decide
  · rfl

/-- Claim C5 counterexample: `-t show -o foo.png circle 5` passes argument
validation, yet the plotter `main` constructs has mode `show` and a set
output file path, refuting "file path set only if mode is file". -/
theorem output_config_iff_counterexample :
    ArgsParser.check_args ["png"]
      ⟨"show", some "foo.png", 0, 0, Figure.circle 5⟩ = Except.ok () ∧
    (mainPlotterBase "/cwd"
      ⟨"show", some "foo.png", 0, 0, Figure.circle 5⟩).output_type ≠ "file" ∧
    (mainPlotterBase "/cwd"
      ⟨"show", some "foo.png", 0, 0, Figure.circle 5⟩).output_file_path ≠ none := by
  refine ⟨rfl, by decide, by decide⟩

/-- Claim C5 (amended): after successful validation the output file path
is set whenever the mode is `file`; a `show`/`console` invocation may also
carry a set output file path, but then no file is ever written. -/
theorem output_config_amended (supported : List String) (cwd : String)
    (a : ScriptArgs) (hok : ArgsParser.check_args supported a = Except.ok ()) :
    (a.outputtype = "file" → (mainPlotterBase cwd a).output_file_path ≠ none) ∧
    ((mainPlotterBase cwd a).output_type = a.outputtype) ∧
    (a.outputtype ≠ "file" → filesWritten (PlotScript.main supported cwd a) = []) := by
  refine ⟨?_, ?_, ?_⟩
  · intro hf
    cases ho : a.outputfile with
    | none =>
      unfold ArgsParser.check_args at hok
      rw [hf, ho] at hok
      simp at hok
    | some p =>
      cases hfig : a.figure <;>
        simp [mainPlotterBase, hfig, CirclePlotter.init, RectanglePlotter.init,
          EllipsePlotter.init, CirclePlotter.plot, RectanglePlotter.plot,
          EllipsePlotter.plot, AbstractPlotter.init, ho]
  · cases hfig : a.figure <;>
      simp [mainPlotterBase, hfig, CirclePlotter.init, RectanglePlotter.init,
        EllipsePlotter.init, CirclePlotter.plot, RectanglePlotter.plot,
        EllipsePlotter.plot, AbstractPlotter.init]
  · intro hne
    unfold PlotScript.main
    rw [hok]
    cases hfig : a.figure with
    | circle radius =>
      obtain ⟨t, ht⟩ := do_output_ok_of_plotted
        ((CirclePlotter.init cwd a.x a.y a.outputtype a.outputfile radius).plot).toAbstractPlotter
        (Patch.circle (a.x, a.y) radius) rfl
      show filesWritten (Except.ok (CirclePlotter.run cwd a.x a.y a.outputtype a.outputfile radius)) = []
      have hs := do_output_saved_to_of_not_file _ hne t ht
      unfold CirclePlotter.run
      rw [ht]
      simp [filesWritten, hs]
    | rectangle width height angle =>
      obtain ⟨t, ht⟩ := do_output_ok_of_plotted
        ((RectanglePlotter.init cwd a.x a.y a.outputtype a.outputfile width height angle).plot).toAbstractPlotter
        (Patch.rectangle (a.x, a.y) width height angle) rfl
      show filesWritten (Except.ok (RectanglePlotter.run cwd a.x a.y a.outputtype a.outputfile width height angle)) = []
      have hs := do_output_saved_to_of_not_file _ hne t ht
      unfold RectanglePlotter.run
      rw [ht]
      simp [filesWritten, hs]
    | ellipse width height angle =>
      obtain ⟨t, ht⟩ := do_output_ok_of_plotted
        (EllipsePlotter.plot (EllipsePlotter.init cwd a.x a.y a.outputtype a.outputfile width height angle)).toAbstractPlotter
        (Patch.ellipse (a.x, a.y) width height angle) rfl
      show filesWritten (Except.ok (EllipsePlotter.run cwd a.x a.y a.outputtype a.outputfile width height angle)) = []
      have hs := do_output_saved_to_of_not_file _ hne t ht
      unfold EllipsePlotter.run
      rw [ht]
      simp [filesWritten, hs]

/-- Claim C8: the program is deterministic in its arguments: two
invocations with identical arguments construct identical plotter states
and produce identical output traces (same patch drawn, same save path). -/
theorem main_deterministic (supported : List String) (cwd : String)
    (a b : ScriptArgs) (hab : a = b) :
    mainPlotterBase cwd a = mainPlotterBase cwd b ∧
    PlotScript.main supported cwd a = PlotScript.main supported cwd b := by
  subst hab
  exact ⟨rfl, rfl⟩

/-- Claim C9: an output file name whose `pathlib` suffix is empty even
though the name contains a dot (a single leading dot such as `.png`, or a
trailing dot such as `shape.`) raises the missing-extension usage error
rather than being accepted or classified. -/
theorem empty_suffix_missing_extension (supported : List String)
    (a : ScriptArgs) (p : String) (ht : a.outputtype = "file")
    (ho : a.outputfile = some p) (hdot : '.' ∈ (pathName p).toList)
    (hsuf : pathSuffix p = "") :
    ArgsParser.check_args supported a
      = Except.error (.missingExtension (missingExtensionMsg supported)) := by
  have hext : fileExtension p = "" := by
    unfold fileExtension
    rw [hsuf]
    rfl
  unfold ArgsParser.check_args
  rw [ht, ho]
  simp [hext]

/-- Claim C10: extension validation is case-sensitive: an extension that
only differs from a supported format in letter case is rejected with the
unsupported-format usage error, whose message renders the extension in
upper case. -/
theorem extension_check_case_sensitive (supported : List String)
    (a : ScriptArgs) (p : String) (ht : a.outputtype = "file")
    (ho : a.outputfile = some p) (hne : fileExtension p ∉ supported)
    (hlow : strLower (fileExtension p) ∈ supported)
    (hnonempty : fileExtension p ≠ "") :
    ArgsParser.check_args supported a
      = Except.error (.unsupportedFormat (unsupportedFormatMsg (fileExtension p) supported)) ∧
    ∃ rest, unsupportedFormatMsg (fileExtension p) supported
      = strUpper (fileExtension p) ++ rest := by
  constructor
  · unfold ArgsParser.check_args
    rw [ht, ho]
    simp [hnonempty, hne]
  · exact ⟨_, rfl⟩

/-! ### Witnesses -/

/-- Witness for C3 at `-t file -o out.png circle 5`. -/
theorem check_args_file_extension_spec_witness :
    ArgsParser.check_args ["png", "svg"]
      ⟨"file", some "out.png", 1, 2, Figure.circle 5⟩ = Except.ok () :=
  ((check_args_file_extension_spec ["png", "svg"] "/cwd"
      ⟨"file", some "out.png", 1, 2, Figure.circle 5⟩ "out.png" rfl rfl).1).mpr
    ⟨by decide, by decide⟩

/-- Witness for C4 at `-t file circle 5` (no `-o`). -/
theorem check_args_missing_outputfile_witness :
    PlotScript.main ["png"] "/cwd" ⟨"file", none, 0, 0, Figure.circle 5⟩
      = Except.error (.missingOutputFile missingOutputFileMsg) :=
  (check_args_missing_outputfile ["png"] "/cwd"
    ⟨"file", none, 0, 0, Figure.circle 5⟩ rfl rfl).2.1

/-- Witness for the amended C5 at `-t file -o out.png circle 5`. -/
theorem output_config_amended_witness :
    (mainPlotterBase "/cwd"
      ⟨"file", some "out.png", 0, 0, Figure.circle 5⟩).output_file_path ≠ none :=
  (output_config_amended ["png"] "/cwd"
    ⟨"file", some "out.png", 0, 0, Figure.circle 5⟩ rfl).1 rfl

/-- Witness for C6 at `-t show circle 5`. -/
theorem run_assertion_unreachable_witness :
    ∃ t, CirclePlotter.run "/cwd" 0 0 "show" none 5 = Except.ok t :=
  run_assertion_unreachable ["png"] "/cwd" ⟨"show", none, 0, 0, Figure.circle 5⟩
    (CirclePlotter.run "/cwd" 0 0 "show" none 5) rfl

/-- Witness for C7 on a plotted circle plotter in `file` mode. -/
theorem do_output_dispatch_witness :
    (("file" : String) = "console" →
      AbstractPlotter.do_output ⟨some (Patch.circle (0, 0) 1), (0, 0), "file", some "/o.png"⟩
        = Except.ok ⟨true, Patch.circle (0, 0) 1, true, none⟩) ∧
    (("file" : String) = "show" →
      AbstractPlotter.do_output ⟨some (Patch.circle (0, 0) 1), (0, 0), "file", some "/o.png"⟩
        = Except.ok ⟨false, Patch.circle (0, 0) 1, true, none⟩) ∧
    (("file" : String) = "file" →
      AbstractPlotter.do_output ⟨some (Patch.circle (0, 0) 1), (0, 0), "file", some "/o.png"⟩
        = Except.ok ⟨false, Patch.circle (0, 0) 1, false, some "/o.png"⟩) :=
  do_output_dispatch ⟨some (Patch.circle (0, 0) 1), (0, 0), "file", some "/o.png"⟩
    (Patch.circle (0, 0) 1) rfl

/-- Witness for C8 at `-t show circle 5`. -/
theorem main_deterministic_witness :
    mainPlotterBase "/cwd" ⟨"show", none, 0, 0, Figure.circle 5⟩
      = mainPlotterBase "/cwd" ⟨"show", none, 0, 0, Figure.circle 5⟩ ∧
    PlotScript.main ["png"] "/cwd" ⟨"show", none, 0, 0, Figure.circle 5⟩
      = PlotScript.main ["png"] "/cwd" ⟨"show", none, 0, 0, Figure.circle 5⟩ :=
  main_deterministic ["png"] "/cwd" _ _ rfl

/-- Witness for C9 at `-o .png`: a leading-dot-only name is treated as
having no extension. -/
theorem empty_suffix_missing_extension_witness :
    ArgsParser.check_args ["png"] ⟨"file", some ".png", 0, 0, Figure.circle 5⟩
      = Except.error (.missingExtension (missingExtensionMsg ["png"])) :=
  empty_suffix_missing_extension ["png"]
    ⟨"file", some ".png", 0, 0, Figure.circle 5⟩ ".png"
    rfl rfl (by decide) (by decide)

/-- Witness for C10 at `-o out.PNG` with supported set `png`. -/
theorem extension_check_case_sensitive_witness :
    ArgsParser.check_args ["png"] ⟨"file", some "out.PNG", 0, 0, Figure.circle 5⟩
      = Except.error (.unsupportedFormat (unsupportedFormatMsg "PNG" ["png"])) :=
  (extension_check_case_sensitive ["png"]
    ⟨"file", some "out.PNG", 0, 0, Figure.circle 5⟩ "out.PNG"
    rfl rfl (by decide) (by decide) (by decide)).1
